import Mathlib

/-!
Shallow embedding of the nearby-connections platform layer excerpt:

* `src/cpp/platform/impl/windows/bluetooth_classic_socket.cc` —
  `BluetoothSocket`, its nested `BluetoothInputStream` and
  `BluetoothOutputStream`, and their `Read`/`Write`/`Flush`/`Close`
  operations, embedded function by function.
* `src/cpp/platform/api/wifi_lan_v2.h` — pure-virtual declarations of
  `WifiLanMediumV2`; the behaviour of `StartDiscovery`/`StopDiscovery` and
  `ConnectToService` is modelled from the spec (the header carries only
  declarations and doc comments).

The native WinRT stack is an external collaborator: each wrapped native call
is parametrised by a `NativeCall` oracle saying whether that particular
invocation completes or throws a C++ exception, and (for reads) by the bytes
the asynchronous read has deposited in the buffer by the time the code
inspects it (`Read` fires `ReadAsync` without awaiting it, so any amount from
0 up to the requested count may have landed).  Invoking a method through a
null WinRT reference, or through a destroyed/null `unique_ptr`, is undefined
behaviour, modelled as the `crash` outcome.
-/

namespace NearbyWindows

/-- Kinds of the C++ `Exception` value type used by the platform layer
(`kSuccess`, `kIo`, `kFailed` are the kinds this file mentions). -/
inductive ExceptionKind
  | kSuccess
  | kIo
  | kFailed
  deriving DecidableEq, Repr

/-- `ExceptionOr<T>`: either a success value or a typed exception kind. -/
inductive ExceptionOr (α : Type)
  | ok (a : α)
  | error (e : ExceptionKind)
  deriving DecidableEq, Repr

/-- External-collaborator model of one invocation of a wrapped native (WinRT)
call: it either completes normally or throws a C++ exception. -/
inductive NativeCall
  | completes
  | throws
  deriving DecidableEq, Repr

/-- Result of executing one embedded C++ member function on a live object:
a normal return, or a C++ exception escaping the function (no handler on the
path). -/
inductive CallResult (α : Type)
  | ret (a : α)
  | thrown
  deriving DecidableEq, Repr

/-- `BluetoothSocket::BluetoothInputStream`: wraps the non-null
`winrt_stream_` (`IInputStream`) reference stored by its constructor.  The
native stream's state lives with the external collaborator, so the wrapper
itself carries only the reference. -/
structure BluetoothInputStream where
  winrt_stream : Unit
  deriving DecidableEq, Repr

/-- `BluetoothSocket::BluetoothOutputStream`: wraps the non-null
`winrt_stream_` (`IOutputStream`) reference stored by its constructor. -/
structure BluetoothOutputStream where
  winrt_stream : Unit
  deriving DecidableEq, Repr

/-- Embeds `BluetoothSocket::BluetoothInputStream::Read(std::int64_t size)`:

* `Buffer buffer = Buffer(size);` — allocates a buffer whose capacity is
  `size` converted from `int64_t` to the `uint32_t` constructor parameter
  (modular conversion), initial `Length()` 0;
* `winrt_stream_.ReadAsync(buffer, size, InputStreamOptions::None);` — fires
  the asynchronous read WITHOUT awaiting it; the oracle `deposited` gives the
  bytes the async operation has written into the buffer by the time the next
  line runs (the buffer never holds more than its capacity), and `nc` says
  whether `ReadAsync` throws.  There is no try/catch in `Read`, so a throw
  escapes the function;
* `DataReader dataReader = DataReader::FromBuffer(buffer);` — constructed and
  never used;
* `ByteArray data((char*)buffer.data(), buffer.Length());` and
  `return ExceptionOr(data);` — the only return path: a success result
  carrying the buffer's current contents. -/
def BluetoothInputStream.Read (_strm : BluetoothInputStream) (size : Int)
    (nc : NativeCall) (deposited : List UInt8) :
    CallResult (ExceptionOr (List UInt8)) :=
  let capacity : Nat := (size.emod (2 ^ 32)).toNat
  match nc with
  | NativeCall.throws => CallResult.thrown
  | NativeCall.completes =>
      CallResult.ret (ExceptionOr.ok (deposited.take capacity))

/-- Embeds `BluetoothSocket::BluetoothInputStream::Close()`: calls
`winrt_stream_.Close()` inside `try { ... } catch (std::exception)`; returns
`{Exception::kFailed}` from the catch branch and `{Exception::kSuccess}`
otherwise. -/
def BluetoothInputStream.Close (_strm : BluetoothInputStream)
    (nc : NativeCall) : CallResult ExceptionKind :=
  match nc with
  | NativeCall.throws => CallResult.ret ExceptionKind.kFailed
  | NativeCall.completes => CallResult.ret ExceptionKind.kSuccess

/-- Embeds `BluetoothSocket::BluetoothOutputStream::Write(const ByteArray&)`:
allocates `Buffer buffer(data.size())`, copies `data` into it with `memcpy`,
then calls `winrt_stream_.WriteAsync(buffer)` inside
`try { ... } catch (std::exception)`: the catch branch returns
`{Exception::kFailed}`, the fall-through returns `{Exception::kSuccess}`. -/
def BluetoothOutputStream.Write (_strm : BluetoothOutputStream)
    (data : List UInt8) (nc : NativeCall) : CallResult ExceptionKind :=
  let _buffer : List UInt8 := data
  match nc with
  | NativeCall.throws => CallResult.ret ExceptionKind.kFailed
  | NativeCall.completes => CallResult.ret ExceptionKind.kSuccess

/-- Embeds `BluetoothSocket::BluetoothOutputStream::Flush()`: calls
`winrt_stream_.FlushAsync().get()` inside `try/catch (std::exception)`;
returns `{Exception::kFailed}` on catch, `{Exception::kSuccess}` otherwise. -/
def BluetoothOutputStream.Flush (_strm : BluetoothOutputStream)
    (nc : NativeCall) : CallResult ExceptionKind :=
  match nc with
  | NativeCall.throws => CallResult.ret ExceptionKind.kFailed
  | NativeCall.completes => CallResult.ret ExceptionKind.kSuccess

/-- Embeds `BluetoothSocket::BluetoothOutputStream::Close()`: calls
`winrt_stream_.Close()` inside `try/catch (std::exception)`; returns
`{Exception::kFailed}` on catch, `{Exception::kSuccess}` otherwise. -/
def BluetoothOutputStream.Close (_strm : BluetoothOutputStream)
    (nc : NativeCall) : CallResult ExceptionKind :=
  match nc with
  | NativeCall.throws => CallResult.ret ExceptionKind.kFailed
  | NativeCall.completes => CallResult.ret ExceptionKind.kSuccess

/-- The opaque `api::BluetoothDevice` peer-identity type (declared outside
this excerpt; no field of it is inspected here). -/
inductive BluetoothDevice
  | mk
  deriving DecidableEq, Repr

/-- `BluetoothSocket` member state:

* `windows_socket_` (`IStreamSocket`): `some ()` while the WinRT reference is
  non-null, `none` after `windows_socket_ = nullptr;`
* `input_stream_` / `output_stream_` (`std::unique_ptr`s): `some strm` while
  the unique_ptr owns a live stream object, `none` after `= nullptr;` (which
  destroys the owned object). -/
structure BluetoothSocket where
  windows_socket : Option Unit
  input_stream : Option BluetoothInputStream
  output_stream : Option BluetoothOutputStream
  deriving DecidableEq, Repr

/-- Result of one embedded `BluetoothSocket`-level operation: a normal return
carrying the value and the socket state afterwards, a C++ exception escaping
with the socket state as mutated so far, or undefined behaviour (a call
through a null WinRT reference or a null/destroyed `unique_ptr`). -/
inductive SockOutcome (α : Type)
  | ret (a : α) (s : BluetoothSocket)
  | thrown (s : BluetoothSocket)
  | crash
  deriving DecidableEq, Repr

/-- Embeds the `BluetoothSocket()` constructor's result on the path where the
native calls succeed: `windows_socket_` holds the acquired `IStreamSocket`,
and `input_stream_` / `output_stream_` hold freshly `std::make_unique`d
wrappers of its `InputStream()` / `OutputStream()` (`make_unique` never
yields a null pointer). -/
def BluetoothSocket.construct : BluetoothSocket :=
  { windows_socket := some ()
    input_stream := some { winrt_stream := () }
    output_stream := some { winrt_stream := () } }

/-- Embeds `BluetoothSocket::Close()`:

* `windows_socket_.Close();` — a call through the stored WinRT reference:
  undefined behaviour if that reference is already null (as it is after a
  previous `Close()`); there is no try/catch, so if the native teardown
  throws, the exception escapes and the following assignments never run;
* `windows_socket_ = nullptr; input_stream_ = nullptr;
  output_stream_ = nullptr;` — nulls the native reference and destroys both
  stream objects;
* `return {Exception::kSuccess};` — the only return, always success. -/
def BluetoothSocket.Close (s : BluetoothSocket) (nc : NativeCall) :
    SockOutcome ExceptionKind :=
  match s.windows_socket with
  | none => SockOutcome.crash
  | some _ =>
      match nc with
      | NativeCall.throws => SockOutcome.thrown s
      | NativeCall.completes =>
          SockOutcome.ret ExceptionKind.kSuccess
            { windows_socket := none, input_stream := none,
              output_stream := none }

/-- Embeds `BluetoothSocket::GetInputStream()`:
`return *input_stream_.get();` — dereferences the unique_ptr with no null
check (undefined behaviour once `Close()` has nulled it). -/
def BluetoothSocket.GetInputStream (s : BluetoothSocket) :
    SockOutcome BluetoothInputStream :=
  match s.input_stream with
  | none => SockOutcome.crash
  | some strm => SockOutcome.ret strm s

/-- Embeds `BluetoothSocket::GetOutputStream()`:
`return *output_stream_.get();` — dereferences the unique_ptr with no null
check. -/
def BluetoothSocket.GetOutputStream (s : BluetoothSocket) :
    SockOutcome BluetoothOutputStream :=
  match s.output_stream with
  | none => SockOutcome.crash
  | some strm => SockOutcome.ret strm s

/-- Embeds `BluetoothSocket::GetRemoteDevice()`: the body is
`return nullptr;` (marked `TODO(b/184975123): replace with real
implementation`), so the accessor yields the null sentinel on every socket
state, connected or not. -/
def BluetoothSocket.GetRemoteDevice (_s : BluetoothSocket) :
    Option BluetoothDevice :=
  none

/-- `GetInputStream().Read(size)`: a read issued through the socket's input
stream, as the upper layer does after obtaining the stream reference.  On a
socket whose `Close()` has run, the stream object has been destroyed and the
call is undefined behaviour. -/
def BluetoothSocket.readOp (s : BluetoothSocket) (size : Int)
    (nc : NativeCall) (deposited : List UInt8) :
    SockOutcome (ExceptionOr (List UInt8)) :=
  match s.input_stream with
  | none => SockOutcome.crash
  | some strm =>
      match strm.Read size nc deposited with
      | CallResult.ret r => SockOutcome.ret r s
      | CallResult.thrown => SockOutcome.thrown s

/-- `GetOutputStream().Write(data)` issued through the socket. -/
def BluetoothSocket.writeOp (s : BluetoothSocket) (data : List UInt8)
    (nc : NativeCall) : SockOutcome ExceptionKind :=
  match s.output_stream with
  | none => SockOutcome.crash
  | some strm =>
      match strm.Write data nc with
      | CallResult.ret r => SockOutcome.ret r s
      | CallResult.thrown => SockOutcome.thrown s

/-- `GetOutputStream().Flush()` issued through the socket. -/
def BluetoothSocket.flushOp (s : BluetoothSocket) (nc : NativeCall) :
    SockOutcome ExceptionKind :=
  match s.output_stream with
  | none => SockOutcome.crash
  | some strm =>
      match strm.Flush nc with
      | CallResult.ret r => SockOutcome.ret r s
      | CallResult.thrown => SockOutcome.thrown s

/-- `GetInputStream().Close()` issued through the socket (stream-level close:
it closes the native stream but does not touch the socket's members). -/
def BluetoothSocket.closeInputOp (s : BluetoothSocket) (nc : NativeCall) :
    SockOutcome ExceptionKind :=
  match s.input_stream with
  | none => SockOutcome.crash
  | some strm =>
      match strm.Close nc with
      | CallResult.ret r => SockOutcome.ret r s
      | CallResult.thrown => SockOutcome.thrown s

/-- `GetOutputStream().Close()` issued through the socket. -/
def BluetoothSocket.closeOutputOp (s : BluetoothSocket) (nc : NativeCall) :
    SockOutcome ExceptionKind :=
  match s.output_stream with
  | none => SockOutcome.crash
  | some strm =>
      match strm.Close nc with
      | CallResult.ret r => SockOutcome.ret r s
      | CallResult.thrown => SockOutcome.thrown s

/-- One operation the upper layer can issue on a `BluetoothSocket` (each
native invocation carries its own oracle). -/
inductive SocketOp
  | read (size : Int) (nc : NativeCall) (deposited : List UInt8)
  | write (data : List UInt8) (nc : NativeCall)
  | flush (nc : NativeCall)
  | closeInput (nc : NativeCall)
  | closeOutput (nc : NativeCall)
  | getInput
  | getOutput
  | getRemoteDevice
  | close (nc : NativeCall)
  deriving DecidableEq, Repr

/-- Whether an operation is the socket-level `Close()`. -/
def SocketOp.isClose : SocketOp → Bool
  | SocketOp.close _ => true
  | _ => false

/-- Dispatch one operation, keeping only the socket state evolution. -/
def socketStep (s : BluetoothSocket) : SocketOp → SockOutcome Unit
  | SocketOp.read size nc deposited =>
      match s.readOp size nc deposited with
      | SockOutcome.ret _ s' => SockOutcome.ret () s'
      | SockOutcome.thrown s' => SockOutcome.thrown s'
      | SockOutcome.crash => SockOutcome.crash
  | SocketOp.write data nc =>
      match s.writeOp data nc with
      | SockOutcome.ret _ s' => SockOutcome.ret () s'
      | SockOutcome.thrown s' => SockOutcome.thrown s'
      | SockOutcome.crash => SockOutcome.crash
  | SocketOp.flush nc =>
      match s.flushOp nc with
      | SockOutcome.ret _ s' => SockOutcome.ret () s'
      | SockOutcome.thrown s' => SockOutcome.thrown s'
      | SockOutcome.crash => SockOutcome.crash
  | SocketOp.closeInput nc =>
      match s.closeInputOp nc with
      | SockOutcome.ret _ s' => SockOutcome.ret () s'
      | SockOutcome.thrown s' => SockOutcome.thrown s'
      | SockOutcome.crash => SockOutcome.crash
  | SocketOp.closeOutput nc =>
      match s.closeOutputOp nc with
      | SockOutcome.ret _ s' => SockOutcome.ret () s'
      | SockOutcome.thrown s' => SockOutcome.thrown s'
      | SockOutcome.crash => SockOutcome.crash
  | SocketOp.getInput =>
      match s.GetInputStream with
      | SockOutcome.ret _ s' => SockOutcome.ret () s'
      | SockOutcome.thrown s' => SockOutcome.thrown s'
      | SockOutcome.crash => SockOutcome.crash
  | SocketOp.getOutput =>
      match s.GetOutputStream with
      | SockOutcome.ret _ s' => SockOutcome.ret () s'
      | SockOutcome.thrown s' => SockOutcome.thrown s'
      | SockOutcome.crash => SockOutcome.crash
  | SocketOp.getRemoteDevice =>
      SockOutcome.ret () s
  | SocketOp.close nc =>
      match s.Close nc with
      | SockOutcome.ret _ s' => SockOutcome.ret () s'
      | SockOutcome.thrown s' => SockOutcome.thrown s'
      | SockOutcome.crash => SockOutcome.crash

/-- Run a straight-line sequence of operations from a state; an escaping
exception or undefined behaviour aborts the sequence. -/
def runOps (s : BluetoothSocket) : List SocketOp → SockOutcome Unit
  | [] => SockOutcome.ret () s
  | op :: rest =>
      match socketStep s op with
      | SockOutcome.ret _ s' => runOps s' rest
      | SockOutcome.thrown s' => SockOutcome.thrown s'
      | SockOutcome.crash => SockOutcome.crash

/-- The socket state left behind by a completed `Close()`: all three members
nulled. -/
def closedBluetoothSocket : BluetoothSocket :=
  { windows_socket := none, input_stream := none, output_stream := none }

end NearbyWindows

namespace WifiLanApi

/-- Modelled from the spec: `CancellationFlag` (`platform/base/` is not under
src/), a shared externally-settable boolean flag a blocking operation
consults; read-only from the operation's perspective. -/
structure CancellationFlag where
  cancelled : Bool
  deriving DecidableEq, Repr

/-- Modelled from the spec: a `WifiLanSocket` as handed out by
`ConnectToService`; `connected` records that the underlying connection was
fully established before the socket was returned. -/
structure WifiLanSocket where
  connected : Bool
  deriving DecidableEq, Repr

/-- Modelled from the spec: `WifiLanMediumV2::ConnectToService(remote_service,
cancellation_flag)` — the header only declares it ("On success, returns a new
WifiLanSocket. On error, returns nullptr.").  Per spec §4.4 the blocking call
respects the cancellation token: a set (cancelled) token makes it return the
"no socket" sentinel (`none`, the nullptr return); otherwise the outcome
follows the native connect attempt (`nativeOk`), returning a fully connected
socket on success and `none` on failure — never a partially-initialized
socket. -/
def connectToService (flag : CancellationFlag) (nativeOk : Bool) :
    Option WifiLanSocket :=
  if flag.cancelled then none
  else if nativeOk then some { connected := true }
  else none

/-- Modelled from the spec: discovery state of one `WifiLanMediumV2`.
Callbacks are compared by instance identity (header doc on `StopDiscovery`:
"If the callback instance is different then the StopDiscovery won't take
effect"), so a registration is the identity of the registered callback;
`none` is the {Idle} state. -/
structure MediumDiscoveryState where
  discovery : Option Nat
  deriving DecidableEq, Repr

/-- Modelled from the spec: the {Idle} medium, before any `StartDiscovery`. -/
def idleMedium : MediumDiscoveryState :=
  { discovery := none }

/-- Modelled from the spec: `WifiLanMediumV2::StartDiscovery(callback)` —
declared only in the header.  Per spec §4.4, {Idle} → StartDiscovery(cb) →
{Discovering}, keyed by the callback's identity; at most one live
registration, so starting while already {Discovering} fails initiation and
leaves the state unchanged. -/
def startDiscovery (m : MediumDiscoveryState) (cb : Nat) :
    Bool × MediumDiscoveryState :=
  match m.discovery with
  | some _ => (false, m)
  | none => (true, { discovery := some cb })

/-- Modelled from the spec: `WifiLanMediumV2::StopDiscovery(callback)` —
declared only in the header.  Per the header doc and spec §3, the call
matches the live registration by callback identity: with the identical
callback it deactivates discovery ({Discovering} → {Idle}); with a
different-identity callback it "won't take effect" — a no-op that leaves the
registration active. -/
def stopDiscovery (m : MediumDiscoveryState) (cb : Nat) :
    Bool × MediumDiscoveryState :=
  match m.discovery with
  | some cb0 =>
      if cb0 = cb then (true, { discovery := none })
      else (false, m)
  | none => (true, m)

end WifiLanApi

open NearbyWindows WifiLanApi

/-- A live input-stream wrapper, as the socket constructor builds it. -/
def inStream0 : BluetoothInputStream :=
  { winrt_stream := () }

/-- A live output-stream wrapper, as the socket constructor builds it. -/
def outStream0 : BluetoothOutputStream :=
  { winrt_stream := () }

/-- Boolean check that both stream unique_ptrs of a socket are non-null. -/
def streamsLive (s : BluetoothSocket) : Bool :=
  s.input_stream.isSome && s.output_stream.isSome

/-- Helper: a non-close operation either returns with the socket state
unchanged, throws with the socket state unchanged, or is undefined behaviour
(only `Close()` assigns to the member fields). -/
theorem socketStep_nonclose_cases (s : BluetoothSocket) (op : SocketOp)
    (hop : op.isClose = false) :
    socketStep s op = SockOutcome.ret () s ∨
    socketStep s op = SockOutcome.thrown s ∨
    socketStep s op = SockOutcome.crash := by
  cases op with
  | read size nc deposited =>
      rcases hin : s.input_stream with _ | strm
      · exact Or.inr (Or.inr
          (by simp [socketStep, BluetoothSocket.readOp, hin]))
      · cases nc
        · exact Or.inl (by simp [socketStep, BluetoothSocket.readOp, hin,
            BluetoothInputStream.Read])
        · exact Or.inr (Or.inl (by simp [socketStep,
            BluetoothSocket.readOp, hin, BluetoothInputStream.Read]))
  | write data nc =>
      rcases hout : s.output_stream with _ | strm
      · exact Or.inr (Or.inr
          (by simp [socketStep, BluetoothSocket.writeOp, hout]))
      · cases nc <;> exact Or.inl (by simp [socketStep,
          BluetoothSocket.writeOp, hout, BluetoothOutputStream.Write])
  | flush nc =>
      rcases hout : s.output_stream with _ | strm
      · exact Or.inr (Or.inr
          (by simp [socketStep, BluetoothSocket.flushOp, hout]))
      · cases nc <;> exact Or.inl (by simp [socketStep,
          BluetoothSocket.flushOp, hout, BluetoothOutputStream.Flush])
  | closeInput nc =>
      rcases hin : s.input_stream with _ | strm
      · exact Or.inr (Or.inr
          (by simp [socketStep, BluetoothSocket.closeInputOp, hin]))
      · cases nc <;> exact Or.inl (by simp [socketStep,
          BluetoothSocket.closeInputOp, hin, BluetoothInputStream.Close])
  | closeOutput nc =>
      rcases hout : s.output_stream with _ | strm
      · exact Or.inr (Or.inr
          (by simp [socketStep, BluetoothSocket.closeOutputOp, hout]))
      · cases nc <;> exact Or.inl (by simp [socketStep,
          BluetoothSocket.closeOutputOp, hout, BluetoothOutputStream.Close])
  | getInput =>
      rcases hin : s.input_stream with _ | strm
      · exact Or.inr (Or.inr
          (by simp [socketStep, BluetoothSocket.GetInputStream, hin]))
      · exact Or.inl
          (by simp [socketStep, BluetoothSocket.GetInputStream, hin])
  | getOutput =>
      rcases hout : s.output_stream with _ | strm
      · exact Or.inr (Or.inr
          (by simp [socketStep, BluetoothSocket.GetOutputStream, hout]))
      · exact Or.inl
          (by simp [socketStep, BluetoothSocket.GetOutputStream, hout])
  | getRemoteDevice =>
      exact Or.inl rfl
  | close nc =>
      simp [SocketOp.isClose] at hop

/-- Helper: a non-close operation that returns or throws leaves the socket
state exactly as it was. -/
theorem socketStep_nonclose_fixes_state (s : BluetoothSocket) (op : SocketOp)
    (hop : op.isClose = false) (s' : BluetoothSocket)
    (h : socketStep s op = SockOutcome.ret () s' ∨
         socketStep s op = SockOutcome.thrown s') :
    s' = s := by
  rcases socketStep_nonclose_cases s op hop with hc | hc | hc <;>
    rcases h with h | h <;> rw [hc] at h <;>
    first
      | (injection h with h1 h2; exact h2.symm)
      | (injection h with h2; exact h2.symm)
      | (cases h)

/-- Helper: a straight-line run of close-free operations that returns or
throws ends in the very state it started from. -/
theorem runOps_nonclose_fixes_state (ops : List SocketOp)
    (hops : ∀ op ∈ ops, op.isClose = false) (s s' : BluetoothSocket)
    (h : runOps s ops = SockOutcome.ret () s' ∨
         runOps s ops = SockOutcome.thrown s') :
    s' = s := by
  induction ops generalizing s with
  | nil =>
      rcases h with h | h <;> simp only [runOps] at h
      · injection h with h1 h2; exact h2.symm
      · cases h
  | cons op rest ih =>
      have hop : op.isClose = false := hops op (List.mem_cons_self op rest)
      have hrest : ∀ o ∈ rest, o.isClose = false :=
        fun o ho => hops o (List.mem_cons_of_mem op ho)
      rcases socketStep_nonclose_cases s op hop with hc | hc | hc
      · rcases h with h | h <;> simp only [runOps, hc] at h
        · exact ih hrest s (Or.inl h)
        · exact ih hrest s (Or.inr h)
      · rcases h with h | h <;> simp only [runOps, hc] at h
        · cases h
        · injection h with h2; exact h2.symm
      · rcases h with h | h <;> simp only [runOps, hc] at h <;> cases h

/-- C1: the spec demands that after `Close()` every subsequent `Read`,
`Write`, or `Flush` on the socket's streams returns an I/O failure.  The code
does the opposite: `Close()` succeeds and destroys both stream objects
(nulling the unique_ptrs), so each subsequent stream operation dereferences a
destroyed object — undefined behaviour, not an I/O failure result. -/
theorem read_write_flush_after_close_are_undefined_behavior :
    BluetoothSocket.Close BluetoothSocket.construct NativeCall.completes
      = SockOutcome.ret ExceptionKind.kSuccess closedBluetoothSocket ∧
    BluetoothSocket.readOp closedBluetoothSocket 4 NativeCall.completes []
      = SockOutcome.crash ∧
    BluetoothSocket.writeOp closedBluetoothSocket [1] NativeCall.completes
      = SockOutcome.crash ∧
    BluetoothSocket.flushOp closedBluetoothSocket NativeCall.completes
      = SockOutcome.crash :=
  ⟨rfl, rfl, rfl, rfl⟩

/-- C2: the spec says `Close()` is idempotent (a second call returns success
again).  In the code the first `Close()` nulls `windows_socket_`, and a
second `Close()` invokes `windows_socket_.Close()` through that null WinRT
reference — undefined behaviour, not a second success. -/
theorem second_close_is_undefined_behavior :
    BluetoothSocket.Close BluetoothSocket.construct NativeCall.completes
      = SockOutcome.ret ExceptionKind.kSuccess closedBluetoothSocket ∧
    BluetoothSocket.Close closedBluetoothSocket NativeCall.completes
      = SockOutcome.crash :=
  ⟨rfl, rfl⟩

/-- C3: the claim (and the function's own doc comment) says `Close()` returns
`Exception::kIo` when teardown faults and still leaves the socket closed.  In
the code `windows_socket_.Close()` is not wrapped in any handler: when the
native teardown throws, the exception escapes `Close()` (no `kIo` is ever
returned — the only `return` is `{Exception::kSuccess}`) and the member
nulling is skipped, so the socket is left with its native handle and both
stream pointers still set, i.e. not in the closed state. -/
theorem close_teardown_fault_escapes :
    BluetoothSocket.Close BluetoothSocket.construct NativeCall.throws
      = SockOutcome.thrown BluetoothSocket.construct ∧
    BluetoothSocket.construct.windows_socket = some () ∧
    BluetoothSocket.construct.input_stream = some { winrt_stream := () } ∧
    BluetoothSocket.construct.output_stream = some { winrt_stream := () } :=
  ⟨rfl, rfl, rfl, rfl⟩

/-- C4 counterexample: on a broken connection (the wrapped native call
throws) `Write` returns the typed kind `kFailed` — not the I/O kind — and
`Read`, which has no try/catch, lets the exception escape across the
abstraction boundary instead of returning any typed error. -/
theorem broken_write_kFailed_and_read_propagates_exception :
    BluetoothOutputStream.Write outStream0 [7] NativeCall.throws
      = CallResult.ret ExceptionKind.kFailed ∧
    BluetoothInputStream.Read inStream0 4 NativeCall.throws []
      = CallResult.thrown :=
  ⟨rfl, rfl⟩

/-- C4 amended: `Write` and `Flush` always return a typed `Exception` result
(never letting an exception escape), reporting a throwing native call as the
`kFailed` kind rather than the I/O kind; `Read` has no handler, so a throwing
native call propagates out of `Read` uncaught. -/
theorem write_flush_typed_kFailed_read_uncaught
    (strmI : BluetoothInputStream) (strmO : BluetoothOutputStream)
    (data deposited : List UInt8) (size : Int) :
    strmO.Write data NativeCall.throws = CallResult.ret ExceptionKind.kFailed ∧
    strmO.Flush NativeCall.throws = CallResult.ret ExceptionKind.kFailed ∧
    (∀ nc, ∃ e, strmO.Write data nc = CallResult.ret e) ∧
    (∀ nc, ∃ e, strmO.Flush nc = CallResult.ret e) ∧
    strmI.Read size NativeCall.throws deposited = CallResult.thrown := by
  refine ⟨rfl, rfl, ?_, ?_, rfl⟩
  · intro nc; cases nc <;> exact ⟨_, rfl⟩
  · intro nc; cases nc <;> exact ⟨_, rfl⟩

/-- C5 counterexample: with the underlying connection broken (the native
`ReadAsync` throws), `Read` does not fail with an I/O error kind — having no
handler, it lets the exception escape, so no `ExceptionOr` result of kind
`kIo` is ever produced. -/
theorem read_on_broken_connection_returns_no_io_error :
    BluetoothInputStream.Read inStream0 8 NativeCall.throws []
      = CallResult.thrown :=
  rfl

/-- C5 amended: a successful `Read(max_size)` with non-negative `max_size`
returns a byte array of length at most `max_size` (possibly empty), but when
the underlying connection is broken `Read` does not fail with an I/O error
kind — the native exception propagates out of `Read` uncaught. -/
theorem read_success_bounded_and_broken_read_throws
    (strm : BluetoothInputStream) (size : Int) (h : 0 ≤ size)
    (nc : NativeCall) (deposited r : List UInt8)
    (hret : strm.Read size nc deposited
      = CallResult.ret (ExceptionOr.ok r)) :
    (r.length : Int) ≤ size ∧
    strm.Read size NativeCall.throws deposited = CallResult.thrown := by
  refine ⟨?_, rfl⟩
  cases nc with
  | throws => cases hret
  | completes =>
      simp only [BluetoothInputStream.Read] at hret
      injection hret with hret
      injection hret with hret
      have hcap : ((size.emod (2 ^ 32)).toNat : Int) ≤ size := by
        have hnn : 0 ≤ size.emod (2 ^ 32) := Int.emod_nonneg size (by norm_num)
        have h32 : (2 : Int) ^ 32 = 4294967296 := by norm_num
        rw [Int.toNat_of_nonneg hnn, h32]
        rw [h32] at hnn
        have hmod : size.emod 4294967296 = size % 4294967296 := rfl
        rw [hmod] at hnn ⊢
        omega
      have hlen : r.length ≤ (size.emod (2 ^ 32)).toNat := by
        rw [← hret]
        exact List.length_take_le _ _
      calc (r.length : Int) ≤ ((size.emod (2 ^ 32)).toNat : Int) := by
            exact_mod_cast hlen
        _ ≤ size := hcap

/-- C5 witness: at `max_size = 8` with three bytes deposited, `Read` succeeds
with a three-byte array, within the bound. -/
theorem read_success_bounded_witness :
    0 ≤ (8 : Int) ∧ ((([1, 2, 3] : List UInt8).length : Int) ≤ 8) :=
  ⟨by norm_num,
   (read_success_bounded_and_broken_read_throws inStream0 8 (by norm_num)
     NativeCall.completes [1, 2, 3] [1, 2, 3] rfl).1⟩

/-- C6: a `ConnectToService` call whose cancellation token is already set
returns the explicit "no socket" sentinel (the nullptr return), never a valid
or partially-initialized socket; when it does return a socket, that socket is
fully connected.  Proved over the spec-modelled medium operation (the header
only declares `ConnectToService`). -/
theorem connectToService_cancelled_no_socket_success_connected
    (flag : CancellationFlag) (nativeOk : Bool) :
    (flag.cancelled = true → connectToService flag nativeOk = none) ∧
    (∀ s, connectToService flag nativeOk = some s → s.connected = true) := by
  constructor
  · intro hc
    simp [connectToService, hc]
  · intro s hs
    rcases flag with ⟨c⟩
    cases c with
    | false =>
        cases nativeOk with
        | false => cases hs
        | true =>
            injection hs with hs
            rw [← hs]
    | true => cases hs
/-- C6 witness: with the token set, the call yields the "no socket" sentinel;
with the token clear and the native connect succeeding, the returned socket
is connected. -/
theorem connectToService_cancelled_witness :
    connectToService { cancelled := true } true = none ∧
    ({ connected := true } : WifiLanSocket).connected = true :=
  ⟨(connectToService_cancelled_no_socket_success_connected
      { cancelled := true } true).1 rfl,
   (connectToService_cancelled_no_socket_success_connected
      { cancelled := false } true).2 { connected := true } rfl⟩

/-- C7: after `StartDiscovery(cb)` from {Idle}, a `StopDiscovery(cb2)` with a
different-identity callback reports no effect and leaves the registration
active and unchanged (`some cb`); `StopDiscovery(cb)` with the identical
callback deactivates discovery.  Proved over the spec-modelled medium
discovery state machine (the header only declares these operations). -/
theorem stopDiscovery_identity_law (cb cb2 : Nat) (h : cb2 ≠ cb) :
    (stopDiscovery (startDiscovery idleMedium cb).2 cb2).1 = false ∧
    (stopDiscovery (startDiscovery idleMedium cb).2 cb2).2.discovery
      = some cb ∧
    (stopDiscovery (startDiscovery idleMedium cb).2 cb).2.discovery
      = none := by
  have hstart : (startDiscovery idleMedium cb).2 = { discovery := some cb } :=
    rfl
  rw [hstart]
  refine ⟨?_, ?_, ?_⟩ <;> simp [stopDiscovery, Ne.symm h]
/-- C7 witness: registration under callback identity 0 survives a stop with
identity 1 and is removed by a stop with identity 0. -/
theorem stopDiscovery_identity_law_witness :
    (1 : Nat) ≠ 0 ∧
    ((stopDiscovery (startDiscovery idleMedium 0).2 1).1 = false ∧
     (stopDiscovery (startDiscovery idleMedium 0).2 1).2.discovery
       = some 0 ∧
     (stopDiscovery (startDiscovery idleMedium 0).2 0).2.discovery
       = none) :=
  ⟨by decide, stopDiscovery_identity_law 0 1 (by decide)⟩

/-- C8: the claim says the remote-peer accessor returns the peer identity
when the link layer can supply it and the null sentinel otherwise.  The code
(`GetRemoteDevice`, marked `TODO(b/184975123)`) returns nullptr on every
socket state — even a connected one — contradicting its own doc comment
"Returns valid BluetoothDevice pointer if there is a connection". -/
theorem getRemoteDevice_always_null (s : BluetoothSocket) :
    BluetoothSocket.GetRemoteDevice s = none :=
  rfl

/-- C9: from successful construction, along any straight-line sequence of
operations that does not include the socket-level `Close()`, both stream
unique_ptrs stay non-null (so `GetInputStream`/`GetOutputStream` return live
stream references without crashing), and whenever `Close()` then returns, the
native socket handle and both stream pointers are null. -/
theorem bluetoothSocket_stream_pointer_invariant
    (ops : List SocketOp) (hops : ∀ op ∈ ops, op.isClose = false)
    (s' : BluetoothSocket)
    (hrun : runOps BluetoothSocket.construct ops = SockOutcome.ret () s')
    (nc : NativeCall) (e : ExceptionKind) (s'' : BluetoothSocket)
    (hclose : BluetoothSocket.Close s' nc = SockOutcome.ret e s'') :
    s'.input_stream.isSome = true ∧ s'.output_stream.isSome = true ∧
    (∃ strmIn, s'.GetInputStream = SockOutcome.ret strmIn s') ∧
    (∃ strmOut, s'.GetOutputStream = SockOutcome.ret strmOut s') ∧
    s''.windows_socket = none ∧ s''.input_stream = none ∧
    s''.output_stream = none := by
  have hs : s' = BluetoothSocket.construct :=
    runOps_nonclose_fixes_state ops hops _ s' (Or.inl hrun)
  subst hs
  have hss : s'' = closedBluetoothSocket := by
    cases nc with
    | completes =>
        have hc : BluetoothSocket.Close BluetoothSocket.construct
            NativeCall.completes
            = SockOutcome.ret ExceptionKind.kSuccess closedBluetoothSocket :=
          rfl
        rw [hc] at hclose
        injection hclose with h1 h2
        exact h2.symm
    | throws => cases hclose
  subst hss
  exact ⟨rfl, rfl, ⟨_, rfl⟩, ⟨_, rfl⟩, rfl, rfl, rfl⟩
/-- C9 witness: after obtaining the input stream and flushing, the socket's
streams are still live, and a completed `Close()` nulls all three members. -/
theorem bluetoothSocket_stream_pointer_invariant_witness :
    BluetoothSocket.construct.input_stream.isSome = true ∧
    BluetoothSocket.construct.output_stream.isSome = true ∧
    (∃ strmIn, BluetoothSocket.construct.GetInputStream
      = SockOutcome.ret strmIn BluetoothSocket.construct) ∧
    (∃ strmOut, BluetoothSocket.construct.GetOutputStream
      = SockOutcome.ret strmOut BluetoothSocket.construct) ∧
    closedBluetoothSocket.windows_socket = none ∧
    closedBluetoothSocket.input_stream = none ∧
    closedBluetoothSocket.output_stream = none :=
  bluetoothSocket_stream_pointer_invariant
    [SocketOp.getInput, SocketOp.flush NativeCall.completes]
    (by decide) BluetoothSocket.construct rfl NativeCall.completes
    ExceptionKind.kSuccess closedBluetoothSocket rfl

/-- C10: `BluetoothInputStream::Read` has no error-return branch — every
value it returns is a success result carrying a byte array — while `Write`,
`Flush`, and both stream-level `Close` functions return the `kFailed` kind
when the wrapped native call throws. -/
theorem read_has_no_error_return_branch
    (strmI : BluetoothInputStream) (strmO : BluetoothOutputStream)
    (size : Int) (deposited data : List UInt8) (nc : NativeCall)
    (r : ExceptionOr (List UInt8))
    (hret : strmI.Read size nc deposited = CallResult.ret r) :
    (∃ d, r = ExceptionOr.ok d) ∧
    strmO.Write data NativeCall.throws
      = CallResult.ret ExceptionKind.kFailed ∧
    strmO.Flush NativeCall.throws = CallResult.ret ExceptionKind.kFailed ∧
    strmI.Close NativeCall.throws = CallResult.ret ExceptionKind.kFailed ∧
    strmO.Close NativeCall.throws = CallResult.ret ExceptionKind.kFailed := by
  refine ⟨?_, rfl, rfl, rfl, rfl⟩
  cases nc with
  | throws => cases hret
  | completes =>
      simp only [BluetoothInputStream.Read] at hret
      injection hret with hret
      exact ⟨_, hret.symm⟩
/-- C10 witness: a completing read returns the success result, and the four
sibling operations return `kFailed` on a throwing native call. -/
theorem read_has_no_error_return_branch_witness :
    (∃ d, ExceptionOr.ok ([] : List UInt8) = ExceptionOr.ok d) ∧
    outStream0.Write [] NativeCall.throws
      = CallResult.ret ExceptionKind.kFailed ∧
    outStream0.Flush NativeCall.throws
      = CallResult.ret ExceptionKind.kFailed ∧
    inStream0.Close NativeCall.throws
      = CallResult.ret ExceptionKind.kFailed ∧
    outStream0.Close NativeCall.throws
      = CallResult.ret ExceptionKind.kFailed :=
  read_has_no_error_return_branch inStream0 outStream0 4 [] []
    NativeCall.completes (ExceptionOr.ok []) rfl
